import Mathlib

set_option maxRecDepth 100000

/-!
Shallow embedding of the observation API of `src/app.py` (a Flask service
backed by a relational table).  Pure data is modelled directly; the database
session becomes an explicit list of rows threaded through the handlers, and
`datetime.now(timezone.utc)` becomes an explicit `now` parameter.  JSON
numbers are modelled as rationals; Python `datetime` values are modelled by
the structure `DT` below, with an optional UTC-offset in minutes standing
for `tzinfo` (none = naive).
-/

/-- A JSON value as delivered by `request.get_json`: Python `None`, `bool`,
numbers (modelled as rationals), `str`, `list` and `dict` (a `dict` is kept
as its key/value list; handlers access it through `List.lookup`, matching
first occurrence). -/
inductive JVal where
  | null
  | bool (b : Bool)
  | num (q : Rat)
  | str (s : String)
  | arr (xs : List JVal)
  | obj (fields : List (String × JVal))

/-- Python's `v is None` test. -/
def JVal.isNull : JVal → Bool
  | .null => true
  | _ => false

/-- A Python `datetime`: calendar fields plus the `tzinfo` UTC offset in
minutes (`none` models a naive datetime). -/
structure DT where
  year : Nat
  month : Nat
  day : Nat
  hour : Nat
  minute : Nat
  second : Nat
  offset : Option Int
deriving DecidableEq, Repr

/-- The character for a decimal digit `d < 10`. -/
def dchar (d : Nat) : Char := Char.ofNat (48 + d)

/-- Read one decimal digit, as `int` does on a one-character slice. -/
def digit? (c : Char) : Option Nat :=
  if 48 ≤ c.toNat ∧ c.toNat ≤ 57 then some (c.toNat - 48) else none

/-- Read exactly two digits, returning the value and the rest. -/
def parse2 : List Char → Option (Nat × List Char)
  | a :: b :: rest => do
    let x ← digit? a
    let y ← digit? b
    pure (10 * x + y, rest)
  | _ => none

/-- Read exactly four digits, returning the value and the rest. -/
def parse4 : List Char → Option (Nat × List Char)
  | a :: b :: c :: d :: rest => do
    let x ← digit? a
    let y ← digit? b
    let z ← digit? c
    let w ← digit? d
    pure (((10 * x + y) * 10 + z) * 10 + w, rest)
  | _ => none

/-- Require the next character to be `c`. -/
def expect (c : Char) : List Char → Option (List Char)
  | x :: rest => if x = c then some rest else none
  | _ => none

/-- The trailing timezone part of the string accepted by
`datetime.fromisoformat`: empty (naive), or a sign and `HH:MM`, subject to
`timezone`'s bound of strictly less than 24 hours.  The offset is returned
in minutes. -/
def parseOffset : List Char → Option (Option Int)
  | [] => some none
  | '+' :: rest => do
    let (h, r1) ← parse2 rest
    let r2 ← expect ':' r1
    let (m, r3) ← parse2 r2
    if r3 = [] ∧ m ≤ 59 ∧ h * 60 + m < 1440 then some (some (Int.ofNat (h * 60 + m))) else none
  | '-' :: rest => do
    let (h, r1) ← parse2 rest
    let r2 ← expect ':' r1
    let (m, r3) ← parse2 r2
    if r3 = [] ∧ m ≤ 59 ∧ h * 60 + m < 1440 then some (some (-(Int.ofNat (h * 60 + m)))) else none
  | _ => none

/-- `(y % 4 == 0 and y % 100 != 0) or y % 400 == 0`. -/
def isLeap (y : Nat) : Bool :=
  (y % 4 == 0 && y % 100 != 0) || y % 400 == 0

/-- Length of month `m` of year `y` (the calendar used by `datetime`). -/
def daysInMonth (y m : Nat) : Nat :=
  if m = 2 then (if isLeap y then 29 else 28)
  else if m = 4 ∨ m = 6 ∨ m = 9 ∨ m = 11 then 30
  else 31

/-- The components read from an ISO string: `YYYY-MM-DDTHH:MM:SS` and an
optional offset.  (This models the profile of `datetime.fromisoformat`
the service exchanges: seconds precision with the `T` separator.) -/
def parseCore (s : List Char) : Option (Nat × Nat × Nat × Nat × Nat × Nat × Option Int) := do
  let (y, r1) ← parse4 s
  let r2 ← expect '-' r1
  let (mo, r3) ← parse2 r2
  let r4 ← expect '-' r3
  let (d, r5) ← parse2 r4
  let r6 ← expect 'T' r5
  let (h, r7) ← parse2 r6
  let r8 ← expect ':' r7
  let (mi, r9) ← parse2 r8
  let r10 ← expect ':' r9
  let (se, r11) ← parse2 r10
  let off ← parseOffset r11
  pure (y, mo, d, h, mi, se, off)

/-- The range checks of the `datetime` constructor. -/
def mkDT? (y mo d h mi se : Nat) (off : Option Int) : Option DT :=
  if 1 ≤ y ∧ y ≤ 9999 ∧ 1 ≤ mo ∧ mo ≤ 12 ∧ 1 ≤ d ∧ d ≤ daysInMonth y mo
      ∧ h ≤ 23 ∧ mi ≤ 59 ∧ se ≤ 59 then
    some ⟨y, mo, d, h, mi, se, off⟩
  else none

/-- `datetime.fromisoformat` on the exchanged profile: parse the components,
then construct (validating ranges). -/
def fromisoformat (s : List Char) : Option DT :=
  match parseCore s with
  | none => none
  | some (y, mo, d, h, mi, se, off) => mkDT? y mo d h mi se off

/-- The day after `(y, m, d)`, saturating at `datetime.max`'s date
(9999-12-31), where Python would raise `OverflowError`. -/
def nextDay : Nat × Nat × Nat → Nat × Nat × Nat
  | (y, m, d) =>
    if d < daysInMonth y m then (y, m, d + 1)
    else if m < 12 then (y, m + 1, 1)
    else if y < 9999 then (y + 1, 1, 1)
    else (y, m, d)

/-- The day before `(y, m, d)`, saturating at `datetime.min`'s date
(0001-01-01), where Python would raise `OverflowError`. -/
def prevDay : Nat × Nat × Nat → Nat × Nat × Nat
  | (y, m, d) =>
    if 1 < d then (y, m, d - 1)
    else if 1 < m then (y, m - 1, daysInMonth y (m - 1))
    else if 1 < y then (y - 1, 12, 31)
    else (y, m, d)

/-- Move a calendar date forward by `n` days. -/
def addDaysNat : Nat × Nat × Nat → Nat → Nat × Nat × Nat
  | p, 0 => p
  | p, Nat.succ n => addDaysNat (nextDay p) n

/-- Move a calendar date backward by `n` days. -/
def subDaysNat : Nat × Nat × Nat → Nat → Nat × Nat × Nat
  | p, 0 => p
  | p, Nat.succ n => subDaysNat (prevDay p) n

/-- Move a calendar date by a signed number of days. -/
def addDays (p : Nat × Nat × Nat) (n : Int) : Nat × Nat × Nat :=
  if 0 ≤ n then addDaysNat p n.toNat else subDaysNat p (-n).toNat

/-- `dt.astimezone(timezone.utc)` for an aware datetime whose offset is
`off` minutes: the same instant with the clock fields renormalised to UTC.
`Int.ediv`/`Int.emod` agree with Python's floor division for the positive
modulus 1440. -/
def shiftToUTC (dt : DT) (off : Int) : DT :=
  let total : Int := ((dt.hour * 60 + dt.minute : Nat) : Int) - off
  let dayShift : Int := Int.ediv total 1440
  let rem : Int := Int.emod total 1440
  let date := addDays (dt.year, dt.month, dt.day) dayShift
  { year := date.1, month := date.2.1, day := date.2.2,
    hour := rem.toNat / 60, minute := rem.toNat % 60,
    second := dt.second, offset := some 0 }

/-- `parse_iso8601` (src/app.py:36-49) on the char level: a trailing `Z` is
rewritten to `+00:00`; after `fromisoformat`, a naive result is stamped UTC
and an aware one converted to UTC. -/
def parseIsoChars (s : List Char) : Option DT :=
  let cs := if s.getLast? = some 'Z'
    then s.dropLast ++ ('+' :: '0' :: '0' :: ':' :: '0' :: '0' :: [])
    else s
  match fromisoformat cs with
  | none => none
  | some dt =>
    match dt.offset with
    | none => some { dt with offset := some 0 }
    | some off => some (shiftToUTC dt off)

/-- `parse_iso8601` (src/app.py:36-49). -/
def parse_iso8601 (s : String) : Option DT := parseIsoChars s.data

/-- Two zero-padded digits of `n < 100`. -/
def pad2 (n : Nat) : List Char := [dchar (n / 10), dchar (n % 10)]

/-- Four zero-padded digits of `n < 10000`. -/
def pad4 (n : Nat) : List Char :=
  [dchar (n / 1000), dchar (n / 100 % 10), dchar (n / 10 % 10), dchar (n % 10)]

/-- The `±HH:MM` suffix `datetime.isoformat` prints for an aware value. -/
def offsetChars : Option Int → List Char
  | none => []
  | some off =>
    (if off < 0 then '-' else '+') :: (pad2 (off.natAbs / 60) ++ ':' :: pad2 (off.natAbs % 60))

/-- `datetime.isoformat()` on the exchanged profile (whole seconds, no
microseconds). -/
def isoChars (dt : DT) : List Char :=
  pad4 dt.year ++ '-' :: (pad2 dt.month ++ '-' :: (pad2 dt.day ++
    'T' :: (pad2 dt.hour ++ ':' :: (pad2 dt.minute ++ ':' :: (pad2 dt.second ++
      offsetChars dt.offset)))))

/-- Python `str.replace("+00:00", "Z")`: every occurrence of the six
characters `+00:00` becomes `Z`. -/
def replacePlus0000 : List Char → List Char
  | [] => []
  | '+' :: '0' :: '0' :: ':' :: '0' :: '0' :: rest => 'Z' :: replacePlus0000 rest
  | c :: rest => c :: replacePlus0000 rest

/-- `format_iso8601` (src/app.py:52-58): stamp a naive value UTC, convert an
aware one to UTC, print ISO and replace `+00:00` by `Z`. -/
def format_iso8601 (dt : DT) : String :=
  let dtU := match dt.offset with
    | none => { dt with offset := some 0 }
    | some off => shiftToUTC dt off
  String.mk (replacePlus0000 (isoChars dtU))

example : parse_iso8601 "2025-01-10T12:00:00Z" = some ⟨2025, 1, 10, 12, 0, 0, some 0⟩ := by decide
example : format_iso8601 ⟨2025, 1, 10, 12, 0, 0, some 0⟩ = "2025-01-10T12:00:00Z" := by decide
example : parse_iso8601 "2025-01-10T14:30:00+02:30" = some ⟨2025, 1, 10, 12, 0, 0, some 0⟩ := by decide
example : parse_iso8601 "2025-01-01T00:30:00+02:00" = some ⟨2024, 12, 31, 22, 30, 0, some 0⟩ := by decide
example : parse_iso8601 "2025-01-10T12:00:00" = some ⟨2025, 1, 10, 12, 0, 0, some 0⟩ := by decide
example : parse_iso8601 "2025-13-10T12:00:00" = none := by decide

deriving instance DecidableEq for Except

/-- Python `float(...)` on a decimal string: optional sign, then digits with
an optional fractional part (the profile the service's clients use; the
exponent, infinity and nan spellings are outside the exchanged profile). -/
def pyFloatOfString? (s : String) : Option Rat :=
  let (neg, cs) := match s.data with
    | '-' :: r => (true, r)
    | '+' :: r => (false, r)
    | r => (false, r)
  let ip := cs.takeWhile Char.isDigit
  let rest := cs.dropWhile Char.isDigit
  let mag : Option Rat := match rest with
    | [] => if ip.isEmpty then none
        else some ((ip.foldl (fun acc c => acc * 10 + (c.toNat - 48)) 0 : Nat) : Rat)
    | '.' :: fr =>
      if fr.all Char.isDigit ∧ ¬ (ip.isEmpty ∧ fr.isEmpty) then
        some (((ip.foldl (fun acc c => acc * 10 + (c.toNat - 48)) 0 : Nat) : Rat)
          + ((fr.foldl (fun acc c => acc * 10 + (c.toNat - 48)) 0 : Nat) : Rat) / ((10 : Rat) ^ fr.length))
      else none
    | _ => none
  mag.map (fun q => if neg then -q else q)

/-- Python `float(x)` on a JSON value: numbers pass through, booleans become
0/1, strings go through the decimal parser; `None`, lists and dicts raise
(`none`). -/
def pyFloat? : JVal → Option Rat
  | .num q => some q
  | .bool b => some (if b then 1 else 0)
  | .str s => pyFloatOfString? s
  | _ => none

/-- How `json.dumps`/`str` print a float that holds this rational: integral
values print with a trailing `.0` (the only shape the claims exercise). -/
def ratRepr (q : Rat) : String :=
  if q.den = 1 then toString q.num ++ ".0" else toString q.num ++ "/" ++ toString q.den

/-- `json.dumps` with its default separators.  String escaping is modelled
for the exchanged profile (no quote or backslash inside keys/values). -/
def dumps : JVal → String
  | .null => "null"
  | .bool b => if b then "true" else "false"
  | .num q => ratRepr q
  | .str s => "\"" ++ s ++ "\""
  | .arr xs => "[" ++ String.intercalate ", " (xs.attach.map (fun x => dumps x.1)) ++ "]"
  | .obj fs =>
    "\x7b" ++ String.intercalate ", " (fs.attach.map (fun p => "\"" ++ p.1.1 ++ "\": " ++ dumps p.1.2)) ++ "\x7d"
decreasing_by
  · have := List.sizeOf_lt_of_mem x.2
    simp_wf
    omega
  · have := List.sizeOf_lt_of_mem p.2
    obtain ⟨⟨a, b⟩, hp⟩ := p
    simp_wf
    simp only [Prod.mk.sizeOf_spec] at this
    omega

/-- Python `str(x)` as the validator applies it to `notes` (only strings are
exercised by the service's clients; containers are approximated by their
JSON form). -/
def pyStr : JVal → String
  | .str s => s
  | .bool b => if b then "True" else "False"
  | .null => "None"
  | .num q => ratRepr q
  | v => dumps v

/-- `REQUIRED_FIELDS` (src/app.py:33). -/
def REQUIRED_FIELDS : List String :=
  ["timestamp", "timezone", "latitude", "longitude", "satellite_id"]

/-- `field in data` for a JSON object's key/value list. -/
def hasKey (data : List (String × JVal)) (k : String) : Bool :=
  (data.lookup k).isSome

/-- The `Missing required field: ...` messages collected by the full
validation loop (src/app.py:93-96). -/
def missingFieldErrors (data : List (String × JVal)) : List String :=
  REQUIRED_FIELDS.filterMap (fun f =>
    if (data.lookup f).isNone then some ("Missing required field: " ++ f) else none)

/-- The local `ts` of the validator: the parsed timestamp when present,
a string and parseable. -/
def tsVal (data : List (String × JVal)) : Option DT :=
  match data.lookup "timestamp" with
  | some (.str s) => parse_iso8601 s
  | _ => none

/-- The timestamp error of src/app.py:100-104 (`parse_iso8601` raises both
on a non-string and on an unparseable string; both are caught). -/
def timestampErrors (data : List (String × JVal)) : List String :=
  match data.lookup "timestamp" with
  | none => []
  | some (.str s) =>
    if (parse_iso8601 s).isSome then [] else ["Invalid 'timestamp'. Must be ISO 8601 string."]
  | some _ => ["Invalid 'timestamp'. Must be ISO 8601 string."]

/-- The local `tz`: present, a string and non-empty. -/
def tzVal (data : List (String × JVal)) : Option String :=
  match data.lookup "timezone" with
  | some (.str s) => if s = "" then none else some s
  | _ => none

/-- The timezone error of src/app.py:111-114. -/
def timezoneErrors (data : List (String × JVal)) : List String :=
  match data.lookup "timezone" with
  | none => []
  | some (.str s) => if s = "" then ["Invalid 'timezone'. Must be non-empty string."] else []
  | some _ => ["Invalid 'timezone'. Must be non-empty string."]

/-- The local `lat`: `float(data["latitude"])` when it succeeds. -/
def latVal (data : List (String × JVal)) : Option Rat :=
  match data.lookup "latitude" with
  | none => none
  | some v => pyFloat? v

/-- The latitude error of src/app.py:118-122: only convertibility to float
is checked, nothing about the value's range. -/
def latitudeErrors (data : List (String × JVal)) : List String :=
  match data.lookup "latitude" with
  | none => []
  | some v => if (pyFloat? v).isSome then [] else ["Invalid 'latitude'. Must be a number."]

/-- The local `lon`. -/
def lonVal (data : List (String × JVal)) : Option Rat :=
  match data.lookup "longitude" with
  | none => none
  | some v => pyFloat? v

/-- The longitude error of src/app.py:124-129. -/
def longitudeErrors (data : List (String × JVal)) : List String :=
  match data.lookup "longitude" with
  | none => []
  | some v => if (pyFloat? v).isSome then [] else ["Invalid 'longitude'. Must be a number."]

/-- The local `sat_id`. -/
def satVal (data : List (String × JVal)) : Option String :=
  match data.lookup "satellite_id" with
  | some (.str s) => if s = "" then none else some s
  | _ => none

/-- The satellite_id error of src/app.py:133-136. -/
def satelliteErrors (data : List (String × JVal)) : List String :=
  match data.lookup "satellite_id" with
  | none => []
  | some (.str s) => if s = "" then ["Invalid 'satellite_id'. Must be non-empty string."] else []
  | some _ => ["Invalid 'satellite_id'. Must be non-empty string."]

/-- The `errors` list of `validate_observation_payload` in the order the
source appends (src/app.py:91-149).  `spectral_indices` contributes no
error: values arriving through `request.get_json` are always
JSON-serialisable, so the `json.dumps` guard of src/app.py:141-144 cannot
fire; `notes` has no validation at all. -/
def validationErrors (data : List (String × JVal)) (part : Bool) : List String :=
  (if part then [] else missingFieldErrors data)
    ++ timestampErrors data ++ timezoneErrors data
    ++ latitudeErrors data ++ longitudeErrors data ++ satelliteErrors data

/-- The `normalised` dict (src/app.py:155-169): an outer `none` means the
key is absent from the dict.  For `spectral_indices` and `notes` the inner
option is the stored value (`none` = Python `None`). -/
structure Normalised where
  timestamp : Option DT
  timezone : Option String
  latitude : Option Rat
  longitude : Option Rat
  satellite_id : Option String
  spectral_indices : Option (Option String)
  notes : Option (Option String)
deriving DecidableEq, Repr

/-- Builds `normalised` as src/app.py:155-169 does.  In the error-free path
each `xVal` equals the source's local variable, and a key is present in
`normalised` exactly when the source's condition holds. -/
def normalisedOf (data : List (String × JVal)) (part : Bool) : Normalised :=
  { timestamp :=
      if (tsVal data).isSome || (!part && hasKey data "timestamp") then tsVal data else none,
    timezone :=
      if (tzVal data).isSome || (!part && hasKey data "timezone") then tzVal data else none,
    latitude :=
      if (latVal data).isSome || (!part && hasKey data "latitude") then latVal data else none,
    longitude :=
      if (lonVal data).isSome || (!part && hasKey data "longitude") then lonVal data else none,
    satellite_id :=
      if (satVal data).isSome || (!part && hasKey data "satellite_id") then satVal data else none,
    spectral_indices :=
      match data.lookup "spectral_indices" with
      | none => none
      | some v => some (if v.isNull then none else some (dumps v)),
    notes :=
      match data.lookup "notes" with
      | none => none
      | some v => some (if v.isNull then none else some (pyStr v)) }

/-- `validate_observation_payload` (src/app.py:87-171): `part` is the
source's `partial` flag.  Returns the error pair or the normalised dict. -/
def validate_observation_payload (v : JVal) (part : Bool) : Except (String × String) Normalised :=
  match v with
  | .obj data =>
    if (validationErrors data part).isEmpty then .ok (normalisedOf data part)
    else .error ("VALIDATION_ERROR", String.intercalate "; " (validationErrors data part))
  | _ => .error ("INVALID_PAYLOAD", "Request body must be a JSON object.")

example :
    validate_observation_payload (.obj [("timestamp", .str "2025-01-10T12:00:00Z"),
      ("timezone", .str "UTC"), ("latitude", .num 10), ("longitude", .num 20),
      ("satellite_id", .str "S1")]) false
    = .ok ⟨some ⟨2025, 1, 10, 12, 0, 0, some 0⟩, some "UTC", some 10, some 20, some "S1",
        none, none⟩ := by decide

example :
    validate_observation_payload (.obj []) false
    = .error ("VALIDATION_ERROR",
        "Missing required field: timestamp; Missing required field: timezone; " ++
        "Missing required field: latitude; Missing required field: longitude; " ++
        "Missing required field: satellite_id") := by decide

/-- A row of the `observations` table (src/app.py:16-26).  `created_at` is
not a column of the model; it is the attribute `src/mark_old.py` assigns in
the belief that it drives the immutability rule — `app.py` never reads it. -/
structure Observation where
  id : Nat
  timestamp : DT
  timezone : String
  latitude : Rat
  longitude : Rat
  satellite_id : String
  spectral_indices : Option String
  notes : Option String
  created_at : Option DT
deriving DecidableEq, Repr

/-- Chronological key of a datetime's clock fields: strictly monotone in the
lexicographic field order for in-range values, so `<`/`≤` on keys mirror
Python's datetime comparison (offsets are uniformly UTC in the store). -/
def dtKey (d : DT) : Nat :=
  ((((d.year * 16 + d.month) * 32 + d.day) * 24 + d.hour) * 60 + d.minute) * 60 + d.second

/-- `a < b` on datetimes. -/
def dtLt (a b : DT) : Bool := dtKey a < dtKey b

/-- `a <= b` on datetimes. -/
def dtLe (a b : DT) : Bool := dtKey a ≤ dtKey b

/-- `get_current_quarter_start` (src/app.py:61-65) with the ambient clock
made explicit. -/
def get_current_quarter_start (now : DT) : DT :=
  let quarter := (now.month - 1) / 3 + 1
  let start_month := 3 * (quarter - 1) + 1
  ⟨now.year, start_month, 1, 0, 0, 0, some 0⟩

/-- `is_historical_record` (src/app.py:68-71): the record's **timestamp**
field, not any creation instant, is compared with the quarter start. -/
def is_historical_record (obs : Observation) (now : DT) : Bool :=
  dtLt obs.timestamp (get_current_quarter_start now)

/-- `Observation.query.get(obs_id)`. -/
def findObs? (store : List Observation) (i : Nat) : Option Observation :=
  store.find? (fun o => o.id == i)

/-- Committing a mutation of the row with id `i`: the first matching row is
replaced. -/
def replaceFirst (store : List Observation) (i : Nat) (newObs : Observation) : List Observation :=
  match store with
  | [] => []
  | o :: rest => if o.id == i then newObs :: rest else o :: replaceFirst rest i newObs

/-- `db.session.delete(obs)` for the row with id `i`. -/
def removeFirst (store : List Observation) (i : Nat) : List Observation :=
  match store with
  | [] => []
  | o :: rest => if o.id == i then rest else o :: removeFirst rest i

/-- The `Observation(...)` constructor call of the create paths
(src/app.py:466-474, 616-624): full validation guarantees the five required
keys are present; `some` of the row, `none` models the `KeyError` that
cannot arise. -/
def mkObs? (i : Nat) (n : Normalised) : Option Observation :=
  match n.timestamp, n.timezone, n.latitude, n.longitude, n.satellite_id with
  | some t, some tz, some la, some lo, some sid =>
    some { id := i, timestamp := t, timezone := tz, latitude := la, longitude := lo,
           satellite_id := sid, spectral_indices := n.spectral_indices.join,
           notes := n.notes.join, created_at := none }
  | _, _, _, _, _ => none

/-- `handle_observation_create` (src/app.py:446-478): status and the store
after the call; `nextId` is the identifier the table would assign. -/
def handle_observation_create (store : List Observation) (nextId : Nat) (payload : JVal) :
    Nat × List Observation :=
  match payload with
  | .obj _ =>
    match validate_observation_payload payload false with
    | .error _ => (400, store)
    | .ok n =>
      match mkObs? nextId n with
      | some o => (201, store ++ [o])
      | none => (500, store)
  | _ => (400, store)

/-- `handle_observation_put` (src/app.py:488-529): 404 on a missing row,
403 on a historical one, 400 on a bad payload, else the full replace. -/
def handle_observation_put (store : List Observation) (obs_id : Nat) (payload : JVal)
    (now : DT) : Nat × List Observation :=
  match findObs? store obs_id with
  | none => (404, store)
  | some obs =>
    if is_historical_record obs now then (403, store)
    else
      match payload with
      | .obj _ =>
        match validate_observation_payload payload false with
        | .error _ => (400, store)
        | .ok n =>
          match n.timestamp, n.timezone, n.latitude, n.longitude, n.satellite_id with
          | some t, some tz, some la, some lo, some sid =>
            (200, replaceFirst store obs_id
              { id := obs.id, timestamp := t, timezone := tz, latitude := la,
                longitude := lo, satellite_id := sid,
                spectral_indices := n.spectral_indices.join,
                notes := n.notes.join, created_at := obs.created_at })
          | _, _, _, _, _ => (500, store)
      | _ => (400, store)

/-- The `setattr` loop of the PATCH path (src/app.py:574-575): only the keys
present in `normalised` are assigned. -/
def applyPatch (obs : Observation) (n : Normalised) : Observation :=
  { id := obs.id,
    timestamp := n.timestamp.getD obs.timestamp,
    timezone := n.timezone.getD obs.timezone,
    latitude := n.latitude.getD obs.latitude,
    longitude := n.longitude.getD obs.longitude,
    satellite_id := n.satellite_id.getD obs.satellite_id,
    spectral_indices := n.spectral_indices.getD obs.spectral_indices,
    notes := n.notes.getD obs.notes,
    created_at := obs.created_at }

/-- `handle_observation_patch` (src/app.py:532-578): 404, 403 historical,
400 on a list or non-object body or a failing partial validation, else the
merge. -/
def handle_observation_patch (store : List Observation) (obs_id : Nat) (payload : JVal)
    (now : DT) : Nat × List Observation :=
  match findObs? store obs_id with
  | none => (404, store)
  | some obs =>
    if is_historical_record obs now then (403, store)
    else
      match payload with
      | .arr _ => (400, store)
      | .obj _ =>
        match validate_observation_payload payload true with
        | .error _ => (400, store)
        | .ok n => (200, replaceFirst store obs_id (applyPatch obs n))
      | _ => (400, store)

/-- `handle_observation_delete` (src/app.py:581-596). -/
def handle_observation_delete (store : List Observation) (obs_id : Nat) (now : DT) :
    Nat × List Observation :=
  match findObs? store obs_id with
  | none => (404, store)
  | some obs =>
    if is_historical_record obs now then (403, store)
    else (200, removeFirst store obs_id)

/-- The loop body of `handle_bulk_create` (src/app.py:599-628): walks the
items keeping the store and the per-index error descriptors
`(index, error, message)`; ids are assigned sequentially from `nextId`. -/
def bulkCreateAux (store : List Observation) (nextId idx : Nat) (records : List JVal) :
    List Observation × List (Nat × String × String) :=
  match records with
  | [] => (store, [])
  | r :: rest =>
    match validate_observation_payload r false with
    | .error e =>
      let res := bulkCreateAux store nextId (idx + 1) rest
      (res.1, (idx, e.1, e.2) :: res.2)
    | .ok n =>
      match mkObs? nextId n with
      | some o => bulkCreateAux (store ++ [o]) (nextId + 1) (idx + 1) rest
      | none => bulkCreateAux store nextId (idx + 1) rest

/-- `handle_bulk_create` (src/app.py:599-639): status 207 when any error
descriptor was collected, else 201. -/
def handle_bulk_create (store : List Observation) (nextId : Nat) (records : List JVal) :
    Nat × List Observation × List (Nat × String × String) :=
  let res := bulkCreateAux store nextId 0 records
  (if res.2.isEmpty then 201 else 207, res.1, res.2)

/-- The per-item error descriptor of an enumerated bulk-create item, used to
state what `handle_bulk_create` collects. -/
def errOf (p : Nat × JVal) : Option (Nat × String × String) :=
  match validate_observation_payload p.2 false with
  | .error e => some (p.1, e.1, e.2)
  | .ok _ => none

/-- The rows a bulk create persists: one per item that validates, with
sequentially assigned ids. -/
def createdFrom (nextId : Nat) : List JVal → List Observation
  | [] => []
  | r :: rest =>
    match validate_observation_payload r false with
    | .error _ => createdFrom nextId rest
    | .ok n =>
      match mkObs? nextId n with
      | some o => o :: createdFrom (nextId + 1) rest
      | none => createdFrom nextId rest

/-- `parse_float_arg` (src/app.py:414-421): absent is `none`; a present
value must parse as a float or the request fails. -/
def parseFloatArg (args : List (String × String)) (name : String) :
    Except (String × String) (Option Rat) :=
  match args.lookup name with
  | none => .ok none
  | some v =>
    match pyFloatOfString? v with
    | some q => .ok (some q)
    | none => .error ("VALIDATION_ERROR", "Query param '" ++ name ++ "' must be a number.")

/-- One `if bound is not None: query.filter(field >= bound)` step of
src/app.py:433-440. -/
def optFilterGE (l : List Observation) (b : Option Rat) (f : Observation → Rat) :
    List Observation :=
  match b with
  | none => l
  | some a => l.filter (fun o => decide (a ≤ f o))

/-- One `if bound is not None: query.filter(field <= bound)` step. -/
def optFilterLE (l : List Observation) (b : Option Rat) (f : Observation → Rat) :
    List Observation :=
  match b with
  | none => l
  | some a => l.filter (fun o => decide (f o ≤ a))

/-- `handle_observations_list` (src/app.py:394-443): timestamp-range filters
(the `if start_ts_str:` guards are truthiness tests, so an empty value skips
a filter), then the four bounding-box parameters are parsed, then applied in
source order.  Every other query parameter is ignored.  Errors are the 400
responses; the ok value is the 200 body. -/
def handle_observations_list (store : List Observation) (args : List (String × String)) :
    Except (String × String) (List Observation) := do
  let l1 ← match args.lookup "start_timestamp" with
    | none => Except.ok store
    | some s =>
      if s = "" then Except.ok store
      else
        match parse_iso8601 s with
        | some ds => Except.ok (store.filter (fun o => dtLe ds o.timestamp))
        | none => Except.error ("VALIDATION_ERROR", "Invalid date filter: Invalid isoformat string")
  let l2 ← match args.lookup "end_timestamp" with
    | none => Except.ok l1
    | some s =>
      if s = "" then Except.ok l1
      else
        match parse_iso8601 s with
        | some de => Except.ok (l1.filter (fun o => dtLe o.timestamp de))
        | none => Except.error ("VALIDATION_ERROR", "Invalid date filter: Invalid isoformat string")
  let minLat ← parseFloatArg args "min_lat"
  let maxLat ← parseFloatArg args "max_lat"
  let minLon ← parseFloatArg args "min_lon"
  let maxLon ← parseFloatArg args "max_lon"
  Except.ok (optFilterLE (optFilterGE (optFilterLE (optFilterGE l2
    minLat (fun o => o.latitude)) maxLat (fun o => o.latitude))
    minLon (fun o => o.longitude)) maxLon (fun o => o.longitude))

/-- The parsed form of `"2025-01-10T12:00:00Z"`. -/
def t0 : DT := ⟨2025, 1, 10, 12, 0, 0, some 0⟩

/-- A full creation payload with the latitude and longitude values left
open. -/
def basePayload (la lo : JVal) : JVal :=
  .obj [("timestamp", .str "2025-01-10T12:00:00Z"), ("timezone", .str "UTC"),
        ("latitude", la), ("longitude", lo), ("satellite_id", .str "S1")]

/-- A full creation payload with a `spectral_indices` value left open. -/
def spectralPayload (v : JVal) : JVal :=
  .obj [("timestamp", .str "2025-01-10T12:00:00Z"), ("timezone", .str "UTC"),
        ("latitude", .num 1), ("longitude", .num 2), ("satellite_id", .str "S1"),
        ("spectral_indices", v)]

/-- A spectral-indices mapping whose key is outside every fixed index set
and whose value is not numeric. -/
def spectralBad : JVal := .obj [("bogus_key", .str "x")]

/-- lemma for the PATCH identity: replacing the row `find?` returned by
itself leaves the store unchanged. -/
theorem replaceFirst_of_found (store : List Observation) (i : Nat) (obs : Observation)
    (h : findObs? store i = some obs) : replaceFirst store i obs = store := by
  induction store with
  | nil => rfl
  | cons o t ih =>
    cases hc : (o.id == i) with
    | true =>
      have hfind : findObs? (o :: t) i = some o := by
        simp only [findObs?]
        exact List.find?_cons_of_pos _ hc
      rw [hfind] at h
      injection h with h
      subst h
      simp [replaceFirst, hc]
    | false =>
      have hfind : findObs? (o :: t) i = findObs? t i := by
        simp only [findObs?]
        exact List.find?_cons_of_neg _ (by simp [hc])
      rw [hfind] at h
      simp [replaceFirst, hc, ih h]

/-- C10.  For every stored observation whose timestamp is not before the
start of the current quarter, a PATCH with the empty JSON object succeeds
with status 200 and leaves the store — hence every stored field of the
record — unchanged. -/
theorem patch_empty_object_is_identity (store : List Observation) (i : Nat)
    (obs : Observation) (now : DT)
    (hfind : findObs? store i = some obs)
    (hhist : is_historical_record obs now = false) :
    handle_observation_patch store i (.obj []) now = (200, store) := by
  have hval : validate_observation_payload (.obj []) true
      = .ok ⟨none, none, none, none, none, none, none⟩ := rfl
  have happ : applyPatch obs ⟨none, none, none, none, none, none, none⟩ = obs := rfl
  simp [handle_observation_patch, hfind, hhist, hval, happ, replaceFirst_of_found store i obs hfind]

/-- A row whose timestamp lies in 2025 Q2, with the `created_at` attribute
`src/mark_old.py` would have set (a date in 2024 Q1). -/
def obsMarked : Observation :=
  { id := 1, timestamp := ⟨2025, 5, 1, 0, 0, 0, some 0⟩, timezone := "UTC",
    latitude := 10, longitude := 20, satellite_id := "S1",
    spectral_indices := none, notes := none,
    created_at := some ⟨2024, 1, 15, 12, 0, 0, none⟩ }

/-- A "current" instant in 2025 Q2, a later quarter than `created_at`. -/
def nowQ2 : DT := ⟨2025, 6, 15, 0, 0, 0, some 0⟩

/-- A fully valid replacement body for a PUT against `obsMarked`. -/
def putBody : JVal :=
  .obj [("timestamp", .str "2025-05-02T00:00:00Z"), ("timezone", .str "UTC"),
        ("latitude", .num 11), ("longitude", .num 21), ("satellite_id", .str "S2")]

/-- C10 witness: the concrete empty PATCH. -/
theorem patch_empty_object_is_identity_witness :
    handle_observation_patch [obsMarked] 1 (.obj []) nowQ2 = (200, [obsMarked]) :=
  patch_empty_object_is_identity [obsMarked] 1 obsMarked nowQ2 (by decide) (by decide)

/-- C2.  `src/mark_old.py` sets `created_at` to 2024-01-15 expecting the
record to become immutable, and that date lies before the start of the
current quarter of `nowQ2`; yet PUT, PATCH and DELETE against the record all
succeed with 200, because `is_historical_record` compares the observation's
`timestamp` field (2025-05-01, inside the current quarter) and the model has
no `created_at` column at all. -/
theorem historical_gate_ignores_created_at :
    obsMarked.created_at = some ⟨2024, 1, 15, 12, 0, 0, none⟩ ∧
    dtLt ⟨2024, 1, 15, 12, 0, 0, none⟩ (get_current_quarter_start nowQ2) = true ∧
    (handle_observation_put [obsMarked] 1 putBody nowQ2).1 = 200 ∧
    (handle_observation_patch [obsMarked] 1 (.obj []) nowQ2).1 = 200 ∧
    (handle_observation_delete [obsMarked] 1 nowQ2).1 = 200 := by
  refine ⟨rfl, by decide, by decide, by decide, by decide⟩

/-- The store/error characterisation of the bulk-create loop. -/
theorem bulkCreateAux_spec (records : List JVal) :
    ∀ (store : List Observation) (nextId idx : Nat),
    bulkCreateAux store nextId idx records
      = (store ++ createdFrom nextId records, (records.enumFrom idx).filterMap errOf) := by
  induction records with
  | nil => intro store nextId idx; simp [bulkCreateAux, createdFrom]
  | cons r rest ih =>
    intro store nextId idx
    cases hv : validate_observation_payload r false with
    | error e =>
      simp [bulkCreateAux, createdFrom, hv, List.enumFrom, List.filterMap, errOf, ih]
    | ok n =>
      cases hm : mkObs? nextId n with
      | some o =>
        simp [bulkCreateAux, createdFrom, hv, hm, List.enumFrom, List.filterMap, errOf, ih]
      | none =>
        simp [bulkCreateAux, createdFrom, hv, hm, List.enumFrom, List.filterMap, errOf, ih]

/-- C5 (amended).  Every bulk-create item is validated independently: the
error descriptors are exactly the per-index validation errors, the
persisted rows are exactly the items that validate (appended in order with
sequential ids), and the status is 201 when no item fails and 207 whenever
at least one fails — including the case that every item fails, which the
code answers with 207, not 400. -/
theorem bulk_create_best_effort (store : List Observation) (nextId : Nat)
    (records : List JVal) :
    handle_bulk_create store nextId records
      = (if (records.enum.filterMap errOf).isEmpty then 201 else 207,
         store ++ createdFrom nextId records,
         records.enum.filterMap errOf) := by
  have h := bulkCreateAux_spec records store nextId 0
  simp only [handle_bulk_create, h, List.enum]

/-- C5 counterexample: a batch in which no item is valid returns 207, not
the 400 the claim states. -/
theorem bulk_create_all_invalid_is_207 :
    (handle_bulk_create [] 1 [JVal.obj []]).1 = 207 := by decide

/-- C8.  Validation aggregates: whenever `latitude` is missing, the one
`VALIDATION_ERROR` returned carries the whole list of field problems joined
by `"; "`, among them the message naming `latitude`, and the POST handler
answers 400. -/
theorem validation_aggregates_all_errors (data : List (String × JVal))
    (store : List Observation) (nid : Nat)
    (h : data.lookup "latitude" = none) :
    "Missing required field: latitude" ∈ validationErrors data false ∧
    validate_observation_payload (.obj data) false
      = .error ("VALIDATION_ERROR", String.intercalate "; " (validationErrors data false)) ∧
    (handle_observation_create store nid (.obj data)).1 = 400 := by
  have hmem : "Missing required field: latitude" ∈ missingFieldErrors data := by
    refine List.mem_filterMap.2 ⟨"latitude", by simp [REQUIRED_FIELDS], ?_⟩
    simp [h]
  have hmem2 : "Missing required field: latitude" ∈ validationErrors data false := by
    simp only [validationErrors, Bool.false_eq_true, if_false, List.append_assoc]
    exact List.mem_append_left _ hmem
  have hne : (validationErrors data false).isEmpty = false := by
    cases he : (validationErrors data false).isEmpty
    · rfl
    · exact absurd (List.isEmpty_iff.1 he ▸ hmem2) (List.not_mem_nil _)
  refine ⟨hmem2, ?_, ?_⟩
  · simp [validate_observation_payload, hne]
  · simp [handle_observation_create, validate_observation_payload, hne]

/-- C8 witness: the empty payload misses every field; the single aggregated
message names all five, `latitude` among them. -/
theorem validation_aggregates_all_errors_witness :
    validate_observation_payload (.obj []) false
      = .error ("VALIDATION_ERROR",
          "Missing required field: timestamp; Missing required field: timezone; " ++
          "Missing required field: latitude; Missing required field: longitude; " ++
          "Missing required field: satellite_id") := by
  have h := (validation_aggregates_all_errors [] [] 0 rfl).2.1
  rw [h]
  rfl

/-- C1 (amended).  Latitude and longitude are checked for convertibility to
a number only: every numeric pair is accepted whatever its magnitude (no
[-90,90] or [-180,180] range check exists), while a missing or non-numeric
coordinate is rejected with the field-specific message shown. -/
theorem coordinate_validation_no_range_check :
    (∀ la lo : Rat,
      validate_observation_payload (basePayload (.num la) (.num lo)) false
        = .ok ⟨some t0, some "UTC", some la, some lo, some "S1", none, none⟩) ∧
    (validate_observation_payload (basePayload .null (.num 0)) false
      = .error ("VALIDATION_ERROR", "Invalid 'latitude'. Must be a number.")) ∧
    (validate_observation_payload (basePayload (.num 0) .null) false
      = .error ("VALIDATION_ERROR", "Invalid 'longitude'. Must be a number.")) ∧
    (validate_observation_payload
        (.obj [("timestamp", .str "2025-01-10T12:00:00Z"), ("timezone", .str "UTC"),
               ("longitude", .num 0), ("satellite_id", .str "S1")]) false
      = .error ("VALIDATION_ERROR", "Missing required field: latitude")) ∧
    (validate_observation_payload
        (.obj [("timestamp", .str "2025-01-10T12:00:00Z"), ("timezone", .str "UTC"),
               ("latitude", .num 0), ("satellite_id", .str "S1")]) false
      = .error ("VALIDATION_ERROR", "Missing required field: longitude")) := by
  refine ⟨fun la lo => rfl, by decide, by decide, by decide, by decide⟩

/-- C1 counterexample: latitude 100 (outside [-90,90]) and longitude 300
(outside [-180,180]) pass validation, against the claim's required
rejection. -/
theorem out_of_range_coordinates_accepted :
    validate_observation_payload (basePayload (.num 100) (.num 300)) false
      = .ok ⟨some t0, some "UTC", some 100, some 300, some "S1", none, none⟩ := by decide

/-- C6 (amended).  `spectral_indices` is only required to be
JSON-serialisable: any non-null value — mapping or not, with any keys and
any value types — is accepted and stored as its JSON serialisation; no
allowed-key set and no numeric check exists. -/
theorem spectral_indices_unvalidated (v : JVal) (hv : v.isNull = false) :
    validate_observation_payload (spectralPayload v) false
      = .ok ⟨some t0, some "UTC", some 1, some 2, some "S1", some (some (dumps v)), none⟩ := by
  have h : validate_observation_payload (spectralPayload v) false
      = .ok ⟨some t0, some "UTC", some 1, some 2, some "S1",
             some (if v.isNull then none else some (dumps v)), none⟩ := rfl
  rw [h, hv]
  rfl

/-- C6 witness: a mapping with a key outside every fixed index set and a
non-numeric value is accepted. -/
theorem spectral_indices_unvalidated_witness :
    validate_observation_payload (spectralPayload spectralBad) false
      = .ok ⟨some t0, some "UTC", some 1, some 2, some "S1",
             some (some (dumps spectralBad)), none⟩ :=
  spectral_indices_unvalidated spectralBad rfl

/-- C6 counterexample: a non-mapping `spectral_indices` (a bare string) is
accepted, against the claim's required rejection. -/
theorem non_mapping_spectral_accepted :
    validate_observation_payload (spectralPayload (.str "hello")) false
      = .ok ⟨some t0, some "UTC", some 1, some 2, some "S1",
             some (some (dumps (JVal.str "hello"))), none⟩ := rfl

/-- The query parameters `handle_observations_list` reads; every other key
is never looked up. -/
def reservedListParams : List String :=
  ["start_timestamp", "end_timestamp", "min_lat", "max_lat", "min_lon", "max_lon"]

/-- A key none of the association pairs carries is not found. -/
theorem lookup_none_of_not_key {β : Type} (args : List (String × β)) (k : String)
    (h : ∀ p ∈ args, p.1 ≠ k) : args.lookup k = none := by
  induction args with
  | nil => rfl
  | cons a t ih =>
    have ha : (k == a.1) = false :=
      beq_eq_false_iff_ne.2 fun hk => h a (List.mem_cons_self a t) hk.symm
    obtain ⟨x, b⟩ := a
    simp only [List.lookup]
    rw [ha]
    exact ih fun p hp => h p (List.mem_cons_of_mem _ hp)

/-- C3 (amended).  Every query parameter outside the six reserved filter
keys — `id` and payload-field names included — is ignored: the result is the
whole store. -/
theorem list_ignores_unreserved_params (store : List Observation)
    (args : List (String × String))
    (h : ∀ p ∈ args, p.1 ∉ reservedListParams) :
    handle_observations_list store args = .ok store := by
  have hk : ∀ k ∈ reservedListParams, args.lookup k = none := by
    intro k hkmem
    exact lookup_none_of_not_key args k fun p hp hpk => h p hp (hpk ▸ hkmem)
  have h1 := hk "start_timestamp" (by decide)
  have h2 := hk "end_timestamp" (by decide)
  have h3 := hk "min_lat" (by decide)
  have h4 := hk "max_lat" (by decide)
  have h5 := hk "min_lon" (by decide)
  have h6 := hk "max_lon" (by decide)
  simp [handle_observations_list, h1, h2, h3, h4, h5, h6, parseFloatArg,
    optFilterGE, optFilterLE, bind, Except.bind]

/-- A row for the filter examples: latitude 10. -/
def obs10 : Observation :=
  { id := 1, timestamp := ⟨2025, 6, 1, 0, 0, 0, some 0⟩, timezone := "UTC",
    latitude := 10, longitude := 0, satellite_id := "S1",
    spectral_indices := none, notes := none, created_at := none }

/-- Latitude 20. -/
def obs20 : Observation := { obs10 with id := 2, latitude := 20 }

/-- Latitude 30. -/
def obs30 : Observation := { obs10 with id := 3, latitude := 30 }

/-- The three-row store of the spec's filtering example. -/
def store3 : List Observation := [obs10, obs20, obs30]

/-- C3 witness: an arbitrary unreserved parameter changes nothing. -/
theorem list_ignores_unreserved_params_witness :
    handle_observations_list [obs10] [("foo", "1")] = .ok [obs10] :=
  list_ignores_unreserved_params [obs10] [("foo", "1")] (by decide)

/-- C3 counterexample: `region=EU` should (per the claim) match no record —
`obs10` has no payload key `region` — and `id=2` should match no record of
identifier 1; the code returns the full store for both. -/
theorem unreserved_params_match_everything :
    handle_observations_list [obs10] [("region", "EU")] = .ok [obs10] ∧
    handle_observations_list [obs10] [("id", "2")] = .ok [obs10] := by decide

/-- Membership in one optional lower-bound filter step. -/
theorem mem_optFilterGE (l : List Observation) (b : Option Rat) (f : Observation → Rat)
    (o : Observation) :
    o ∈ optFilterGE l b f ↔ o ∈ l ∧ ∀ a, b = some a → a ≤ f o := by
  cases b with
  | none => simp [optFilterGE]
  | some a => simp [optFilterGE, List.mem_filter]

/-- Membership in one optional upper-bound filter step. -/
theorem mem_optFilterLE (l : List Observation) (b : Option Rat) (f : Observation → Rat)
    (o : Observation) :
    o ∈ optFilterLE l b f ↔ o ∈ l ∧ ∀ a, b = some a → f o ≤ a := by
  cases b with
  | none => simp [optFilterLE]
  | some a => simp [optFilterLE, List.mem_filter]

/-- C9.  With no timestamp filters, each present bounding-box bound is an
inclusive closed-interval constraint: a row is returned iff it is stored and
satisfies `min ≤ coordinate` and `coordinate ≤ max` for every present
bound (boundary-equal coordinates included). -/
theorem bounding_box_bounds_inclusive (store : List Observation)
    (args : List (String × String)) (ma Ma mo Mo : Option Rat)
    (h1 : args.lookup "start_timestamp" = none)
    (h2 : args.lookup "end_timestamp" = none)
    (h3 : parseFloatArg args "min_lat" = .ok ma)
    (h4 : parseFloatArg args "max_lat" = .ok Ma)
    (h5 : parseFloatArg args "min_lon" = .ok mo)
    (h6 : parseFloatArg args "max_lon" = .ok Mo) :
    handle_observations_list store args
      = .ok (optFilterLE (optFilterGE (optFilterLE (optFilterGE store
          ma (fun o => o.latitude)) Ma (fun o => o.latitude))
          mo (fun o => o.longitude)) Mo (fun o => o.longitude)) ∧
    ∀ o : Observation,
      o ∈ optFilterLE (optFilterGE (optFilterLE (optFilterGE store
          ma (fun o => o.latitude)) Ma (fun o => o.latitude))
          mo (fun o => o.longitude)) Mo (fun o => o.longitude)
        ↔ o ∈ store ∧ (∀ a, ma = some a → a ≤ o.latitude) ∧ (∀ a, Ma = some a → o.latitude ≤ a)
            ∧ (∀ a, mo = some a → a ≤ o.longitude) ∧ (∀ a, Mo = some a → o.longitude ≤ a) := by
  constructor
  · simp [handle_observations_list, h1, h2, h3, h4, h5, h6, bind, Except.bind]
  · intro o
    simp [mem_optFilterLE, mem_optFilterGE, and_assoc]

/-- C9 witness: the spec's example — latitudes [10, 20, 30] with
`min_lat=15&max_lat=25` return exactly the latitude-20 record. -/
theorem bounding_box_bounds_inclusive_witness :
    handle_observations_list store3 [("min_lat", "15"), ("max_lat", "25")] = .ok [obs20] := by
  have h := (bounding_box_bounds_inclusive store3 [("min_lat", "15"), ("max_lat", "25")]
    (some 15) (some 25) none none
    (by decide) (by decide) (by decide) (by decide) (by decide) (by decide)).1
  rw [h]
  decide

/-- The row of the date-filter example: timestamp 2025-01-10T12:00:00Z. -/
def obsJan : Observation := { obs10 with timestamp := ⟨2025, 1, 10, 12, 0, 0, some 0⟩ }

/-- C4 (amended).  The start/end bounds are inclusive but compared against
the record's full timestamp instant — date *and* time-of-day —, and as the
timestamp column is non-nullable no record can lack one. -/
theorem date_range_filters_full_instant (store : List Observation) (s e : String)
    (ds de : DT) (hs : parse_iso8601 s = some ds) (he : parse_iso8601 e = some de) :
    handle_observations_list store [("start_timestamp", s), ("end_timestamp", e)]
      = .ok ((store.filter (fun o => dtLe ds o.timestamp)).filter
          (fun o => dtLe o.timestamp de)) ∧
    ∀ o : Observation,
      (o ∈ (store.filter (fun o => dtLe ds o.timestamp)).filter (fun o => dtLe o.timestamp de)
        ↔ o ∈ store ∧ dtLe ds o.timestamp = true ∧ dtLe o.timestamp de = true) := by
  have hsne : s ≠ "" := by
    intro hh
    rw [hh, show parse_iso8601 "" = none from rfl] at hs
    exact Option.noConfusion hs
  have hene : e ≠ "" := by
    intro hh
    rw [hh, show parse_iso8601 "" = none from rfl] at he
    exact Option.noConfusion he
  constructor
  · simp [handle_observations_list, List.lookup, hs, he, hsne, hene, parseFloatArg,
      optFilterGE, optFilterLE, bind, Except.bind]
  · intro o
    simp [List.mem_filter, and_assoc]
    exact fun _ => and_comm

/-- C4 witness: an inclusive whole-year range returns the January record. -/
theorem date_range_filters_full_instant_witness :
    handle_observations_list [obsJan]
        [("start_timestamp", "2025-01-01T00:00:00Z"), ("end_timestamp", "2025-12-31T00:00:00Z")]
      = .ok [obsJan] := by
  have h := (date_range_filters_full_instant [obsJan]
    "2025-01-01T00:00:00Z" "2025-12-31T00:00:00Z"
    ⟨2025, 1, 1, 0, 0, 0, some 0⟩ ⟨2025, 12, 31, 0, 0, 0, some 0⟩
    (by decide) (by decide)).1
  rw [h]
  decide

/-- C4 counterexample: the record's date is 2025-01-10, the end bound's date
is 2025-01-10, so under date-component comparison it must match; the code
compares the full instants (12:00:00 against 00:00:00) and drops it. -/
theorem date_filter_compares_time_of_day :
    handle_observations_list [obsJan] [("end_timestamp", "2025-01-10T00:00:00Z")]
      = .ok [] := by decide

/-- The field bounds every `datetime` constructed by the parser satisfies. -/
def ValidDT (dt : DT) : Prop :=
  1 ≤ dt.year ∧ dt.year ≤ 9999 ∧ 1 ≤ dt.month ∧ dt.month ≤ 12
    ∧ 1 ≤ dt.day ∧ dt.day ≤ daysInMonth dt.year dt.month
    ∧ dt.hour ≤ 23 ∧ dt.minute ≤ 59 ∧ dt.second ≤ 59

/-- Bounds of a valid calendar date. -/
def ValidDate (p : Nat × Nat × Nat) : Prop :=
  1 ≤ p.1 ∧ p.1 ≤ 9999 ∧ 1 ≤ p.2.1 ∧ p.2.1 ≤ 12 ∧ 1 ≤ p.2.2 ∧ p.2.2 ≤ daysInMonth p.1 p.2.1

/-- Every month has at least one day. -/
theorem daysInMonth_pos (y m : Nat) : 1 ≤ daysInMonth y m := by
  unfold daysInMonth
  repeat' split
  all_goals omega

/-- December always has 31 days. -/
theorem daysInMonth_twelve (y : Nat) : daysInMonth y 12 = 31 := rfl

/-- January always has 31 days. -/
theorem daysInMonth_one (y : Nat) : daysInMonth y 1 = 31 := rfl


/-- `nextDay` preserves date validity. -/
theorem nextDay_valid (p : Nat × Nat × Nat) (h : ValidDate p) : ValidDate (nextDay p) := by
  obtain ⟨y, m, d⟩ := p
  dsimp only [ValidDate] at h
  simp only [nextDay]
  split_ifs with hd hm hy
  · dsimp only [ValidDate]
    omega
  · dsimp only [ValidDate]
    have := daysInMonth_pos y (m + 1)
    omega
  · dsimp only [ValidDate]
    have h31 : daysInMonth (y + 1) 1 = 31 := rfl
    omega
  · dsimp only [ValidDate]
    omega

/-- `prevDay` preserves date validity. -/
theorem prevDay_valid (p : Nat × Nat × Nat) (h : ValidDate p) : ValidDate (prevDay p) := by
  obtain ⟨y, m, d⟩ := p
  dsimp only [ValidDate] at h
  simp only [prevDay]
  split_ifs with hd hm hy
  · dsimp only [ValidDate]
    omega
  · dsimp only [ValidDate]
    have := daysInMonth_pos y (m - 1)
    omega
  · dsimp only [ValidDate]
    have h31 : daysInMonth (y - 1) 12 = 31 := rfl
    omega
  · dsimp only [ValidDate]
    omega

/-- `addDaysNat` preserves date validity. -/
theorem addDaysNat_valid (n : Nat) : ∀ p, ValidDate p → ValidDate (addDaysNat p n) := by
  induction n with
  | zero => intro p h; exact h
  | succ k ih => intro p h; exact ih (nextDay p) (nextDay_valid p h)

/-- `subDaysNat` preserves date validity. -/
theorem subDaysNat_valid (n : Nat) : ∀ p, ValidDate p → ValidDate (subDaysNat p n) := by
  induction n with
  | zero => intro p h; exact h
  | succ k ih => intro p h; exact ih (prevDay p) (prevDay_valid p h)

/-- `addDays` preserves date validity. -/
theorem addDays_valid (p : Nat × Nat × Nat) (n : Int) (h : ValidDate p) :
    ValidDate (addDays p n) := by
  unfold addDays
  split
  · exact addDaysNat_valid _ p h
  · exact subDaysNat_valid _ p h

/-- The UTC conversion yields a valid, UTC-stamped datetime. -/
theorem shiftToUTC_valid (dt : DT) (off : Int) (h : ValidDT dt) :
    ValidDT (shiftToUTC dt off) ∧ (shiftToUTC dt off).offset = some 0 := by
  obtain ⟨h1, h2, h3, h4, h5, h6, h7, h8, h9⟩ := h
  have hnz : (1440 : Int) ≠ 0 := by decide
  have hpos : (0 : Int) < 1440 := by decide
  have hge : (0 : Int) ≤ Int.emod (((dt.hour * 60 + dt.minute : Nat) : Int) - off) 1440 :=
    Int.emod_nonneg _ hnz
  have hlt : Int.emod (((dt.hour * 60 + dt.minute : Nat) : Int) - off) 1440 < 1440 :=
    Int.emod_lt_of_pos _ hpos
  have hdate := addDays_valid (dt.year, dt.month, dt.day)
    (Int.ediv (Int.ofNat (dt.hour * 60 + dt.minute) - off) 1440)
    (by exact ⟨h1, h2, h3, h4, h5, h6⟩)
  obtain ⟨g1, g2, g3, g4, g5, g6⟩ := hdate
  have htn : (Int.emod (((dt.hour * 60 + dt.minute : Nat) : Int) - off) 1440).toNat < 1440 := by
    omega
  refine ⟨?_, rfl⟩
  dsimp only [shiftToUTC, ValidDT]
  exact ⟨g1, g2, g3, g4, g5, g6, by omega, by omega, h9⟩

/-- `fromisoformat` only produces valid datetimes. -/
theorem fromisoformat_valid (cs : List Char) (dt : DT) (h : fromisoformat cs = some dt) :
    ValidDT dt := by
  unfold fromisoformat at h
  cases hp : parseCore cs with
  | none => rw [hp] at h; exact absurd h (by simp)
  | some tup =>
    rw [hp] at h
    obtain ⟨y, mo, d, hh, mi, se, off⟩ := tup
    dsimp only at h
    unfold mkDT? at h
    split at h
    · rename_i hcond
      injection h with h
      subst h
      exact hcond
    · exact absurd h (by simp)

/-- What a successful `parse_iso8601` returns: a valid datetime stamped UTC. -/
theorem parseIsoChars_valid (s : List Char) (dt : DT) (h : parseIsoChars s = some dt) :
    ValidDT dt ∧ dt.offset = some 0 := by
  unfold parseIsoChars at h
  dsimp only at h
  cases hf : fromisoformat (if s.getLast? = some 'Z'
      then s.dropLast ++ ('+' :: '0' :: '0' :: ':' :: '0' :: '0' :: []) else s) with
  | none => rw [hf] at h; exact absurd h (by simp)
  | some dt0 =>
    rw [hf] at h
    dsimp only at h
    have hvalid := fromisoformat_valid _ dt0 hf
    cases ho : dt0.offset with
    | none =>
      rw [ho] at h
      injection h with h
      subst h
      obtain ⟨v1, v2, v3, v4, v5, v6, v7, v8, v9⟩ := hvalid
      exact ⟨⟨v1, v2, v3, v4, v5, v6, v7, v8, v9⟩, rfl⟩
    | some off =>
      rw [ho] at h
      injection h with h
      subst h
      exact shiftToUTC_valid dt0 off hvalid

/-- No month is longer than 31 days. -/
theorem daysInMonth_le (y m : Nat) : daysInMonth y m ≤ 31 := by
  unfold daysInMonth
  repeat' split
  all_goals omega

/-- Reading back a printed digit. -/
theorem digit?_dchar : ∀ d < 10, digit? (dchar d) = some d := by decide

/-- A printed digit is never the plus sign. -/
theorem dchar_ne_plus : ∀ d < 10, dchar d ≠ '+' := by decide

/-- Reading back two printed digits. -/
theorem parse2_pad2 (n : Nat) (hn : n ≤ 99) (r : List Char) :
    parse2 (pad2 n ++ r) = some (n, r) := by
  have h1 := digit?_dchar (n / 10) (by omega)
  have h2 := digit?_dchar (n % 10) (by omega)
  show parse2 (dchar (n / 10) :: dchar (n % 10) :: r) = some (n, r)
  simp only [parse2, h1, h2, Option.some_bind, Option.bind_eq_bind]
  have : 10 * (n / 10) + n % 10 = n := by omega
  simp [this]

/-- Reading back four printed digits. -/
theorem parse4_pad4 (n : Nat) (hn : n ≤ 9999) (r : List Char) :
    parse4 (pad4 n ++ r) = some (n, r) := by
  have h1 := digit?_dchar (n / 1000) (by omega)
  have h2 := digit?_dchar (n / 100 % 10) (by omega)
  have h3 := digit?_dchar (n / 10 % 10) (by omega)
  have h4 := digit?_dchar (n % 10) (by omega)
  show parse4 (dchar (n / 1000) :: dchar (n / 100 % 10) :: dchar (n / 10 % 10)
    :: dchar (n % 10) :: r) = some (n, r)
  simp only [parse4, h1, h2, h3, h4, Option.some_bind, Option.bind_eq_bind]
  have : ((10 * (n / 1000) + n / 100 % 10) * 10 + n / 10 % 10) * 10 + n % 10 = n := by omega
  simp [this]

/-- The date-and-time part of `isoformat` without the offset suffix. -/
def coreChars (dt : DT) : List Char :=
  pad4 dt.year ++ '-' :: (pad2 dt.month ++ '-' :: (pad2 dt.day ++
    'T' :: (pad2 dt.hour ++ ':' :: (pad2 dt.minute ++ ':' :: pad2 dt.second))))

/-- `isoformat` of a UTC value is the core followed by `+00:00`. -/
theorem isoChars_utc (dt : DT) (h : dt.offset = some 0) :
    isoChars dt = coreChars dt ++ ('+' :: '0' :: '0' :: ':' :: '0' :: '0' :: []) := by
  have hz : offsetChars (some 0) = '+' :: '0' :: '0' :: ':' :: '0' :: '0' :: [] := by decide
  simp [isoChars, coreChars, h, hz, List.append_assoc]

/-- A non-plus head passes through the replacement untouched. -/
theorem replacePlus0000_cons_ne (c : Char) (l : List Char) (hc : c ≠ '+') :
    replacePlus0000 (c :: l) = c :: replacePlus0000 l := by
  rw [replacePlus0000.eq_def]
  split
  · rename_i heq
    exact absurd heq (by simp)
  · rename_i heq
    injection heq with e1 e2
    exact absurd e1 hc
  · rename_i hne heq
    injection heq with e1 e2
    subst e1
    subst e2
    rfl

/-- The replacement distributes over a plus-free prefix. -/
theorem replace_no_plus (l r : List Char) (h : ∀ c ∈ l, c ≠ '+') :
    replacePlus0000 (l ++ r) = l ++ replacePlus0000 r := by
  induction l with
  | nil => rfl
  | cons c t ih =>
    have hc : c ≠ '+' := h c (List.mem_cons_self c t)
    rw [List.cons_append, replacePlus0000_cons_ne c _ hc,
      ih fun x hx => h x (List.mem_cons_of_mem c hx)]
    rfl

/-- Digits of a two-digit field are not plus signs. -/
theorem pad2_no_plus (n : Nat) (hn : n ≤ 99) : ∀ c ∈ pad2 n, c ≠ '+' := by
  intro c hc
  simp only [pad2, List.mem_cons, List.not_mem_nil, or_false] at hc
  rcases hc with rfl | rfl
  · exact dchar_ne_plus _ (by omega)
  · exact dchar_ne_plus _ (by omega)

/-- Digits of a four-digit field are not plus signs. -/
theorem pad4_no_plus (n : Nat) (hn : n ≤ 9999) : ∀ c ∈ pad4 n, c ≠ '+' := by
  intro c hc
  simp only [pad4, List.mem_cons, List.not_mem_nil, or_false] at hc
  rcases hc with rfl | rfl | rfl | rfl
  · exact dchar_ne_plus _ (by omega)
  · exact dchar_ne_plus _ (by omega)
  · exact dchar_ne_plus _ (by omega)
  · exact dchar_ne_plus _ (by omega)

/-- No character of the core is a plus sign. -/
theorem coreChars_no_plus (dt : DT) (h : ValidDT dt) : ∀ c ∈ coreChars dt, c ≠ '+' := by
  obtain ⟨h1, h2, h3, h4, h5, h6, h7, h8, h9⟩ := h
  have hdm := daysInMonth_le dt.year dt.month
  intro c hc
  simp only [coreChars, List.mem_append, List.mem_cons] at hc
  rcases hc with hp | rfl | hp | rfl | hp | rfl | hp | rfl | hp | rfl | hp
  · exact pad4_no_plus dt.year (by omega) c hp
  · decide
  · exact pad2_no_plus dt.month (by omega) c hp
  · decide
  · exact pad2_no_plus dt.day (by omega) c hp
  · decide
  · exact pad2_no_plus dt.hour (by omega) c hp
  · decide
  · exact pad2_no_plus dt.minute (by omega) c hp
  · decide
  · exact pad2_no_plus dt.second (by omega) c hp

/-- Converting a value already at UTC is the identity (offset stamped). -/
theorem shiftToUTC_zero (dt : DT) (h : ValidDT dt) :
    shiftToUTC dt 0 = { dt with offset := some 0 } := by
  obtain ⟨y, mo, d, hh, mi, se, off⟩ := dt
  obtain ⟨h1, h2, h3, h4, h5, h6, h7, h8, h9⟩ := h
  dsimp only at h7 h8 h9
  have hz0 : (0 : Int) ≤ ((hh * 60 + mi : Nat) : Int) := by omega
  have hz1 : ((hh * 60 + mi : Nat) : Int) < 1440 := by omega
  have hsub : ((hh * 60 + mi : Nat) : Int) - 0 = ((hh * 60 + mi : Nat) : Int) := sub_zero _
  have hdiv : Int.ediv (((hh * 60 + mi : Nat) : Int) - 0) 1440 = 0 := by
    rw [hsub]
    exact Int.ediv_eq_zero_of_lt hz0 hz1
  have hmod : Int.emod (((hh * 60 + mi : Nat) : Int) - 0) 1440 = ((hh * 60 + mi : Nat) : Int) := by
    rw [hsub]
    exact Int.emod_eq_of_lt hz0 hz1
  dsimp only [shiftToUTC]
  rw [hdiv, hmod]
  have haddz : addDays (y, mo, d) 0 = (y, mo, d) := rfl
  rw [haddz]
  simp only [DT.mk.injEq, Int.toNat_natCast]
  refine ⟨trivial, trivial, trivial, by omega, by omega, trivial, trivial⟩

/-- Re-reading a printed UTC datetime recovers it exactly. -/
theorem fromisoformat_isoChars (dt : DT) (h : ValidDT dt) (hoff : dt.offset = some 0) :
    fromisoformat (isoChars dt) = some dt := by
  obtain ⟨y, mo, d, hh, mi, se, off⟩ := dt
  dsimp only at hoff
  subst hoff
  obtain ⟨h1, h2, h3, h4, h5, h6, h7, h8, h9⟩ := h
  dsimp only at h1 h2 h3 h4 h5 h6 h7 h8 h9
  have hdm : daysInMonth y mo ≤ 31 := daysInMonth_le y mo
  have hoc : offsetChars (some 0) = '+' :: '0' :: '0' :: ':' :: '0' :: '0' :: [] := by decide
  have hoffp : parseOffset ('+' :: '0' :: '0' :: ':' :: '0' :: '0' :: []) = some (some 0) := by
    decide
  show fromisoformat (pad4 y ++ '-' :: (pad2 mo ++ '-' :: (pad2 d ++
    'T' :: (pad2 hh ++ ':' :: (pad2 mi ++ ':' :: (pad2 se ++ offsetChars (some 0))))))) = _
  rw [hoc]
  simp only [fromisoformat, parseCore, parse4_pad4 y (by omega),
    parse2_pad2 mo (by omega), parse2_pad2 d (by omega), parse2_pad2 hh (by omega),
    parse2_pad2 mi (by omega), parse2_pad2 se (by omega), hoffp, expect,
    Option.some_bind, Option.bind_eq_bind, reduceIte, pure]
  unfold mkDT?
  rw [if_pos ⟨h1, h2, h3, h4, h5, h6, h7, h8, h9⟩]

/-- What `format_iso8601` prints for a valid UTC value: the core followed by
`Z`. -/
theorem format_of_valid (dt : DT) (h : ValidDT dt) (hoff : dt.offset = some 0) :
    (format_iso8601 dt).data = coreChars dt ++ ['Z'] := by
  have hid : { dt with offset := some 0 } = dt := by
    obtain ⟨y, mo, d, hh, mi, se, off⟩ := dt
    dsimp only at hoff
    subst hoff
    rfl
  unfold format_iso8601
  simp only [hoff, shiftToUTC_zero dt h, hid]
  show replacePlus0000 (isoChars dt) = _
  rw [isoChars_utc dt hoff, replace_no_plus _ _ (coreChars_no_plus dt h)]
  rfl

/-- Re-parsing the printed form recovers the parsed value. -/
theorem parse_of_format (dt : DT) (h : ValidDT dt) (hoff : dt.offset = some 0) :
    parse_iso8601 (format_iso8601 dt) = some dt := by
  have hid : { dt with offset := some 0 } = dt := by
    obtain ⟨y, mo, d, hh, mi, se, off⟩ := dt
    dsimp only at hoff
    subst hoff
    rfl
  unfold parse_iso8601
  rw [format_of_valid dt h hoff]
  unfold parseIsoChars
  dsimp only
  rw [List.getLast?_concat, if_pos rfl, List.dropLast_concat, ← isoChars_utc dt hoff,
    fromisoformat_isoChars dt h hoff]
  dsimp only
  rw [hoff]
  dsimp only
  rw [shiftToUTC_zero dt h, hid]

/-- The trailing-Z rewrite at the character level. -/
theorem parseIsoChars_z_rewrite (l : List Char) :
    parseIsoChars (l ++ ['Z'])
      = parseIsoChars (l ++ ('+' :: '0' :: '0' :: ':' :: '0' :: '0' :: [])) := by
  unfold parseIsoChars
  dsimp only
  have g1 : (l ++ ['Z']).getLast? = some 'Z' := List.getLast?_concat _
  have hsplit : l ++ ('+' :: '0' :: '0' :: ':' :: '0' :: '0' :: [])
      = (l ++ ('+' :: '0' :: '0' :: ':' :: '0' :: [])) ++ ['0'] := by simp
  have g2 : (l ++ ('+' :: '0' :: '0' :: ':' :: '0' :: '0' :: [])).getLast? = some '0' := by
    rw [hsplit, List.getLast?_concat]
  rw [g1, g2, if_pos rfl, if_neg (by decide), List.dropLast_concat]

/-- C7.  Every timestamp `parse_iso8601` accepts parses to a UTC-normalised
value; formatting that value yields an ISO 8601 string ending in `Z`, and
re-parsing the formatted string recovers the value exactly, so the string
read back denotes the same UTC instant as the one submitted.  A trailing
`Z` is rewritten to an explicit `+00:00` before parsing, and a timestamp
lacking any offset is treated as UTC (its clock fields are kept, offset 0
stamped). -/
theorem timestamp_roundtrip_utc :
    (∀ (s : String) (dt : DT), parse_iso8601 s = some dt →
      dt.offset = some 0 ∧
      (format_iso8601 dt).data.getLast? = some 'Z' ∧
      parse_iso8601 (format_iso8601 dt) = some dt) ∧
    (∀ t : String, parse_iso8601 (t ++ "Z") = parse_iso8601 (t ++ "+00:00")) ∧
    (∀ (s : String) (dt : DT), s.data.getLast? ≠ some 'Z' →
      fromisoformat s.data = some dt → dt.offset = none →
      parse_iso8601 s = some { dt with offset := some 0 }) := by
  refine ⟨?_, ?_, ?_⟩
  · intro s dt h
    obtain ⟨hv, ho⟩ := parseIsoChars_valid s.data dt h
    refine ⟨ho, ?_, parse_of_format dt hv ho⟩
    rw [format_of_valid dt hv ho]
    exact List.getLast?_concat _
  · intro t
    show parseIsoChars (t.data ++ ['Z'])
      = parseIsoChars (t.data ++ ('+' :: '0' :: '0' :: ':' :: '0' :: '0' :: []))
    exact parseIsoChars_z_rewrite t.data
  · intro s dt hz hf ho
    unfold parse_iso8601 parseIsoChars
    dsimp only
    rw [if_neg hz, hf]
    dsimp only
    rw [ho]

/-- The spec's round-trip example evaluated concretely. -/
example :
    parse_iso8601 "2025-01-10T12:00:00Z" = some t0 ∧
    format_iso8601 t0 = "2025-01-10T12:00:00Z" := by decide
